import Mathlib

set_option maxRecDepth 10000

/-!
# CyberSentinelAI — verification of the classification-and-response core

Shallow embedding of the threat-classification pipeline of the
CyberSentinelAI repository:

* `SecurityRulesEngine` (default rule catalog, `applyRules`, `executeAction`)
* `ThreatDetector.classifyThreats` / `ThreatDetector.createIncidents`
* `BehavioralAnalytics` (temporal anomaly, `detectBehavioralAnomalies`)
* `ExplainabilityEngine` (bias counters, explanation history)
* `InfrastructureProtection.assessThreatToAsset`
* `IncidentResponseOrchestrator` (`orchestrateResponse`, `handleDDoS`, …)

JavaScript numbers are embedded as `ℚ` (fractional constants are written
with `Rat.divInt`, e.g. `0.3` as `Rat.divInt 3 10`), JS strings as
`String`, nullable fields as `Option`.  Effects are made explicit: the
pseudo-random draw consumed by the `rule_ddos_detection` condition, the
untrained-model scores, and database insert outcomes are passed in as
oracle parameters; database writes are recorded in an explicit operation
log.  Purely presentational data that no verified property reads (free-text
`description`s of indicators, ISO timestamps on response actions, the
`toFixed(3)` decimal formatting of the behavioral score, the attached
explainability/protection report objects) is not carried in the records.
-/

namespace CyberSentinel

/-- Boolean prefix test on character lists. -/
def hasPrefixC : List Char → List Char → Bool
  | [], _ => true
  | _ :: _, [] => false
  | a :: as, b :: bs => a == b && hasPrefixC as bs

/-- Boolean infix (substring) test on character lists. -/
def hasInfixC (sub : List Char) : List Char → Bool
  | [] => sub.isEmpty
  | c :: rest => hasPrefixC sub (c :: rest) || hasInfixC sub rest

/-- Substring test, embedding JavaScript `String.prototype.includes`. -/
def strContains (s sub : String) : Bool :=
  hasInfixC sub.toList s.toList

/-- Substring test on the lower-cased string, embedding the ubiquitous
`threat.description.toLowerCase().includes(kw)` pattern of the source
(the lower-casing is applied character-wise). -/
def lcContains (s sub : String) : Bool :=
  hasInfixC sub.toList (s.toList.map Char.toLower)

/-- Rank of the four documented severity strings in the order
Low < Medium < High < Critical; other strings are unranked. -/
def sevRank : String → Option Nat
  | "Low" => some 0
  | "Medium" => some 1
  | "High" => some 2
  | "Critical" => some 3
  | _ => none

/-- `sevLE a b` holds when, whenever `a` is one of the four ranked
severities, `b` is ranked at least as high. -/
def sevLE (a b : String) : Bool :=
  match sevRank a, sevRank b with
  | some ra, some rb => decide (ra ≤ rb)
  | some _, none => false
  | none, _ => true

/-- The result entry recorded by `SecurityRulesEngine.executeAction`
(the `result` object filled in by the `switch` on the action type).  The
`isolation` result carries, besides the duration, the `startTime` string
the source obtains from `new Date().toISOString()` at execution time. -/
inductive ActionResult where
  | escalated (newSeverity : String)
  | alertSent (channel : Option String)
  | isolation (duration : Nat) (startTime : String)
  | blocked (blockDuration : Nat)
  | quarantined (scope : String)
  | monitoring (duration : Nat)
  | priorityIncreased
  | unknown
  deriving DecidableEq, Repr

/-- Action descriptor of a rule (`rule.action` in the source). -/
inductive Action where
  | escalate (newSeverity : String)
  | alert (channel : Option String) (severity : Option String)
  | isolate (duration : Nat)
  | block_ip (duration : Nat)
  | quarantine (scope : String)
  | monitor (duration : Nat)
  | increase_priority (level : String)
  deriving DecidableEq, Repr

/-- One entry of a threat's `appliedRules` list. -/
structure AppliedRule where
  ruleId : String
  ruleName : String
  action : String
  result : ActionResult
  deriving DecidableEq, Repr

/-- A threat record together with the mutable annotation bag the pipeline
accumulates on it (`aiAnomaly`, `isBehavioralAnomaly`,
`behavioralAnomalyScore`, `aiPrediction`, `confidence`, `recommendation`,
`priority`, `appliedRules`). -/
structure Threat where
  id : Option Nat := none
  type : String
  severity : String
  description : String
  source_ip : Option String := none
  destination_ip : Option String := none
  protocol : Option String := none
  port : Option Nat := none
  timestamp : ℚ := 0
  aiAnomaly : Bool := false
  isBehavioralAnomaly : Bool := false
  behavioralAnomalyScore : Option ℚ := none
  aiPrediction : Option String := none
  confidence : ℚ := 0
  recommendation : Option String := none
  priority : Option String := none
  appliedRules : List AppliedRule := []
  deriving DecidableEq, Repr

/-- `SecurityRulesEngine.executeAction`: applies the action's
`modifications` to the threat and returns the filled-in `result`.  `now`
is the wall-clock reading (`new Date().toISOString()`) that the `isolate`
branch stores as the isolation's `startTime`. -/
def executeAction (a : Action) (now : String) (t : Threat) : Threat × ActionResult :=
  match a with
  | .escalate ns => ({ t with severity := ns }, .escalated ns)
  | .alert ch _sev => (t, .alertSent ch)
  | .isolate d => (t, .isolation d now)
  | .block_ip d => (t, .blocked d)
  | .quarantine s => (t, .quarantined s)
  | .monitor d => (t, .monitoring d)
  | .increase_priority lvl => ({ t with priority := some lvl }, .priorityIncreased)

/-- A rule of the engine.  The condition receives, besides the threat, the
pseudo-random draw that the source's `rule_ddos_detection` condition
obtains from `Math.random()`; all other conditions ignore it. -/
structure Rule where
  id : String
  name : String
  condition : ℚ → Threat → Bool
  action : Action
  enabled : Bool

/-- String name of an action type (`rule.action.type`). -/
def Action.typeName : Action → String
  | .escalate _ => "escalate"
  | .alert _ _ => "alert"
  | .isolate _ => "isolate"
  | .block_ip _ => "block_ip"
  | .quarantine _ => "quarantine"
  | .monitor _ => "monitor"
  | .increase_priority _ => "increase_priority"

/-- Default rule `rule_ddos_detection`; its condition additionally reads
the `Math.random() < 0.3` draw. -/
def ruleDdosDetection : Rule :=
  { id := "rule_ddos_detection", name := "DDoS Detection",
    condition := fun rnd t =>
      t.type == "Suspicious Connection" && t.severity == "High" &&
        decide (rnd < Rat.divInt 3 10),
    action := .escalate "Critical", enabled := true }

/-- Default rule `rule_privilege_escalation`. -/
def rulePrivilegeEscalation : Rule :=
  { id := "rule_privilege_escalation", name := "Privilege Escalation Detection",
    condition := fun _ t =>
      lcContains t.description "privilege" || lcContains t.description "sudo" ||
        lcContains t.description "admin",
    action := .alert (some "security_team") none, enabled := true }

/-- Default rule `rule_data_exfiltration`. -/
def ruleDataExfiltration : Rule :=
  { id := "rule_data_exfiltration", name := "Data Exfiltration Detection",
    condition := fun _ t =>
      lcContains t.description "data" || lcContains t.description "exfiltrat" ||
        lcContains t.description "transfer",
    action := .isolate 3600, enabled := true }

/-- Default rule `rule_brute_force`. -/
def ruleBruteForce : Rule :=
  { id := "rule_brute_force", name := "Brute Force Detection",
    condition := fun _ t =>
      t.port == some 22 || t.port == some 3389 || t.port == some 5900,
    action := .block_ip 86400, enabled := true }

/-- Default rule `rule_malware_signature`. -/
def ruleMalwareSignature : Rule :=
  { id := "rule_malware_signature", name := "Malware Signature Match",
    condition := fun _ t =>
      ["trojan", "ransomware", "backdoor", "worm", "virus"].any
        (fun kw => lcContains t.description kw),
    action := .quarantine "immediate", enabled := true }

/-- Default rule `rule_sql_injection`. -/
def ruleSqlInjection : Rule :=
  { id := "rule_sql_injection", name := "SQL Injection Detection",
    condition := fun _ t =>
      ["sql", "injection", "union", "select", "drop"].any
        (fun kw => lcContains t.description kw),
    action := .alert none (some "High"), enabled := true }

/-- Default rule `rule_port_scanning`. -/
def rulePortScanning : Rule :=
  { id := "rule_port_scanning", name := "Port Scanning Detection",
    condition := fun _ t =>
      lcContains t.description "port" && lcContains t.description "scan",
    action := .monitor 1800, enabled := true }

/-- Default rule `rule_critical_service`. -/
def ruleCriticalService : Rule :=
  { id := "rule_critical_service", name := "Critical Service Protection",
    condition := fun _ t =>
      match t.port with
      | some p => [443, 80, 3306, 5432, 27017].contains p
      | none => false,
    action := .increase_priority "critical", enabled := true }

/-- The default rule catalog registered by
`SecurityRulesEngine.initializeDefaultRules`, in registration order. -/
def defaultRules : List Rule :=
  [ ruleDdosDetection, rulePrivilegeEscalation, ruleDataExfiltration,
    ruleBruteForce, ruleMalwareSignature, ruleSqlInjection,
    rulePortScanning, ruleCriticalService ]

/-- One step of the inner loop of `SecurityRulesEngine.applyRules`: try
one rule on the progressively modified threat, extending the
`appliedRules` accumulator when the rule fires.  `now` is the clock
reading an executed `isolate` action records. -/
def applyRuleStep (rnd : ℚ) (now : String) (acc : Threat × List AppliedRule)
    (r : Rule) : Threat × List AppliedRule :=
  if r.enabled && r.condition rnd acc.1 then
    ((executeAction r.action now acc.1).1,
     acc.2 ++ [{ ruleId := r.id, ruleName := r.name,
                 action := r.action.typeName,
                 result := (executeAction r.action now acc.1).2 }])
  else acc

/-- `SecurityRulesEngine.applyRules` restricted to a single threat: fold
the rule list over the working copy, then store the collected
`appliedRules` on the result. -/
def applyRulesOne (rules : List Rule) (rnd : ℚ) (now : String) (t : Threat) : Threat :=
  { (rules.foldl (applyRuleStep rnd now) (t, [])).1 with
      appliedRules := (rules.foldl (applyRuleStep rnd now) (t, [])).2 }

/-- `SecurityRulesEngine.applyRules` over a batch; the `i`-th threat's
evaluation consumes the `i`-th pseudo-random draw and the `i`-th clock
reading. -/
def applyRules (rules : List Rule) (rnd : Nat → ℚ) (nowf : Nat → String) :
    List Threat → List Threat
  | [] => []
  | t :: ts =>
    applyRulesOne rules (rnd 0) (nowf 0) t ::
      applyRules rules (fun i => rnd (i + 1)) (fun i => nowf (i + 1)) ts

/-! ## BehavioralAnalytics -/

/-- `AnomalyDetector.analyzeThreats`: sets the `aiAnomaly` flag from the
model score (`score > 0.5`); the untrained model is the oracle
`aiScore`. -/
def analyzeThreats (aiScore : Threat → ℚ) (ts : List Threat) : List Threat :=
  ts.map fun t => { t with aiAnomaly := decide (aiScore t > Rat.divInt 1 2) }

/-- The per-threat annotation performed inside
`BehavioralAnalytics.detectBehavioralAnomalies`: store the model score and
the `score > 0.6` flag on the threat (the untrained model is the oracle
`bScore`). -/
def annotateBehavioral (bScore : Threat → ℚ) (t : Threat) : Threat :=
  { t with behavioralAnomalyScore := some (bScore t),
           isBehavioralAnomaly := decide (bScore t > Rat.divInt 3 5) }

/-- `BehavioralAnalytics.detectBehavioralAnomalies`: every threat of the
batch is annotated in place, and only those whose flag is set are
returned. -/
def detectBehavioralAnomalies (bScore : Threat → ℚ) (ts : List Threat) : List Threat :=
  (ts.map (annotateBehavioral bScore)).filter (fun t => t.isBehavioralAnomaly)

/-- Lines 54–55 of `ThreatDetector.classifyThreats`: keep the anomaly
subset when it is non-empty, otherwise keep the whole (annotated, since
`detectBehavioralAnomalies` mutates the threats in place) batch. -/
def behavioralSelect (bScore : Threat → ℚ) (ts : List Threat) : List Threat :=
  if ((ts.map (annotateBehavioral bScore)).filter
      (fun t => t.isBehavioralAnomaly)).length > 0 then
    (ts.map (annotateBehavioral bScore)).filter (fun t => t.isBehavioralAnomaly)
  else ts.map (annotateBehavioral bScore)

/-- First half of the per-threat body of the `map` in
`ThreatDetector.classifyThreats` (lines 62–80): when the AI-anomaly or
behavioral-anomaly flag is set, attach the anomaly prediction and
confidence and promote Low→Medium or Medium→High; otherwise attach the
normal prediction and baseline confidence. -/
def classifyEscalate (t : Threat) : Threat :=
  if t.aiAnomaly || t.isBehavioralAnomaly then
    { t with aiPrediction := some "AI-Detected Anomaly",
             confidence := max (t.behavioralAnomalyScore.getD (Rat.divInt 1 2))
               (Rat.divInt 7 10),
             severity :=
               if t.severity = "Low" then "Medium"
               else if t.severity = "Medium" then "High"
               else t.severity }
  else
    { t with aiPrediction := some "Normal Pattern", confidence := Rat.divInt 1 2 }

/-- The per-threat body of the `map` in `ThreatDetector.classifyThreats`
(lines 62–100): the escalation step above followed by the recommendation
label read off the (possibly escalated) severity. -/
def classifyOne (t : Threat) : Threat :=
  { classifyEscalate t with recommendation :=
      (if (classifyEscalate t).severity = "High" ∨
          (classifyEscalate t).severity = "Critical" then
        some "Immediate investigation required"
      else if (classifyEscalate t).severity = "Medium" then
        some "Monitor closely"
      else
        some "Log for reference") }

/-- `ThreatDetector.classifyThreats`.  `aiOk` models whether the AI stages
succeed (on failure the `catch` keeps the base threats); `rnd` supplies
the engine's per-threat pseudo-random draws and `nowf` its per-threat
clock readings. -/
def classifyThreats (aiOk : Bool) (aiScore bScore : Threat → ℚ) (rnd : Nat → ℚ)
    (nowf : Nat → String) (ts : List Threat) : List Threat :=
  if ts.isEmpty then []
  else
    let analyzed :=
      if aiOk then behavioralSelect bScore (analyzeThreats aiScore ts) else ts
    (applyRules defaultRules rnd nowf analyzed).map classifyOne

/-! ## InfrastructureProtection -/

/-- A critical-infrastructure asset
(`InfrastructureProtection.initializeCriticalAssets`). -/
structure Asset where
  id : String
  name : String
  type : String
  ports : List Nat
  protectionLevel : String
  dependents : List String
  deriving DecidableEq, Repr

/-- The `database` entry of the static critical-asset registry. -/
def assetDatabase : Asset :=
  { id := "asset_database", name := "Primary Database Server",
    type := "database", ports := [3306, 5432, 27017],
    protectionLevel := "critical", dependents := ["web_server", "api_server"] }

/-- Severity weight used by `assessThreatToAsset`
(`severity[threat.severity] || 0.25`). -/
def severityWeight : String → ℚ
  | "Critical" => 1
  | "High" => Rat.divInt 3 4
  | "Medium" => Rat.divInt 1 2
  | "Low" => Rat.divInt 1 4
  | _ => Rat.divInt 1 4

/-- `InfrastructureProtection.threatTypeMatchesAsset`: the asset category
maps to a list of threat-type substrings; a match is
`threatType.includes(type)`. -/
def threatTypeMatchesAsset (threatType assetType : String) : Bool :=
  let mappings : List (String × List String) :=
    [ ("database", ["SQL Injection", "Intrusion", "Credential Compromise"]),
      ("web", ["DDoS", "Web Attack", "Intrusion"]),
      ("api", ["API Abuse", "Intrusion", "DDoS"]),
      ("auth", ["Credential Compromise", "Brute Force", "Intrusion"]),
      ("dns", ["DNS Spoofing", "DDoS", "Cache Poisoning"]),
      ("firewall", ["Network Intrusion", "Port Scanning", "DDoS"]) ]
  match mappings.find? (fun p => p.1 == assetType) with
  | some p => p.2.any (fun ty => strContains threatType ty)
  | none => false

/-- Whether the threat's port is a member of the asset's port list
(`asset.ports.includes(parseInt(threat.port))`; a missing port parses to
`NaN` and never matches). -/
def portMatches (t : Threat) (a : Asset) : Bool :=
  match t.port with
  | some p => a.ports.contains p
  | none => false

/-- The un-capped risk sum of `assessThreatToAsset`:
port weight + type-match weight + severity weight. -/
def rawRiskScore (t : Threat) (a : Asset) : ℚ :=
  (if portMatches t a then Rat.divInt 1 2 else Rat.divInt 1 5) +
    (if threatTypeMatchesAsset t.type a.type then Rat.divInt 3 10 else 0) +
    severityWeight t.severity

/-- Recommended action tiers of
`InfrastructureProtection.getRecommendedAction` (action strings omitted;
only the priority tier is carried). -/
def getRecommendedAction (riskScore : ℚ) : String :=
  if riskScore > Rat.divInt 4 5 then "immediate"
  else if riskScore > Rat.divInt 1 2 then "high"
  else "medium"

/-- Result record of `assessThreatToAsset`. -/
structure RiskAssessment where
  assetId : String
  assetName : String
  threatId : Option Nat
  threatType : String
  riskScore : ℚ
  isDirectThreat : Bool
  isTypicalThreat : Bool
  recommendedAction : String
  deriving DecidableEq, Repr

/-- `InfrastructureProtection.assessThreatToAsset`. -/
def assessThreatToAsset (t : Threat) (a : Asset) : RiskAssessment :=
  { assetId := a.id, assetName := a.name, threatId := t.id, threatType := t.type,
    riskScore := min (rawRiskScore t a) 1,
    isDirectThreat := portMatches t a,
    isTypicalThreat := threatTypeMatchesAsset t.type a.type,
    recommendedAction := getRecommendedAction (rawRiskScore t a) }

/-! ## BehavioralAnalytics: temporal anomaly -/

/-- A behavioral profile (`BehavioralAnalytics.createBehavioralProfile` /
`updateBaselineProfile`): the bounded ring of observed threats and the
running count. -/
structure Profile where
  patterns : List Threat
  count : Nat
  deriving Repr

/-- The inter-arrival gaps computed by the `for` loop of
`calculateTemporalAnomaly`
(`patterns[i].timestamp - patterns[i-1].timestamp` for `i = 1…`). -/
def interArrivalGaps : List Threat → List ℚ
  | [] => []
  | [_] => []
  | a :: b :: rest => (b.timestamp - a.timestamp) :: interArrivalGaps (b :: rest)

/-- `BehavioralAnalytics.calculateTemporalAnomaly`: with fewer than two
history entries the feature is 0; otherwise the deviation of the last gap
from the mean of all gaps, divided by the mean (`avgInterval || 1` guards
a zero mean), is compared against 2. -/
def calculateTemporalAnomaly : Option Profile → ℚ
  | none => 0
  | some profile =>
    if profile.patterns.length < 2 then 0
    else
      let timeDifferences := interArrivalGaps profile.patterns
      let avgInterval := timeDifferences.foldl (· + ·) 0 / (timeDifferences.length : ℚ)
      let lastInterval := (timeDifferences.getLast?).getD 0
      if |lastInterval - avgInterval| / (if avgInterval = 0 then 1 else avgInterval) > 2
      then 1 else 0

/-- Modelled from the spec (§4.1, temporal anomaly), for comparison with
`calculateTemporalAnomaly`: "compare the most recent inter-arrival gap in
the profile's history against the mean of all prior gaps; flag if the
absolute deviation exceeds 2× the mean (treating a zero mean as no
anomaly); requires ≥2 history entries, else 0". -/
def temporalAnomalySpec : Option Profile → ℚ
  | none => 0
  | some profile =>
    if profile.patterns.length < 2 then 0
    else
      let gaps := interArrivalGaps profile.patterns
      let priorGaps := gaps.dropLast
      let lastGap := (gaps.getLast?).getD 0
      let priorMean := priorGaps.foldl (· + ·) 0 / (priorGaps.length : ℚ)
      if priorMean ≠ 0 ∧ |lastGap - priorMean| > 2 * priorMean then 1 else 0

/-! ## ExplainabilityEngine: bias counters and explanation history -/

/-- Lookup in the JS `Map` holding the bias counters. -/
def mapGet (m : List (String × Nat)) (k : String) : Option Nat :=
  (m.find? (fun p => p.1 == k)).map (·.2)

/-- Update of the JS `Map`: replace the binding if present, else append. -/
def mapSet (m : List (String × Nat)) (k : String) (v : Nat) : List (String × Nat) :=
  if (m.find? (fun p => p.1 == k)).isSome then
    m.map (fun p => if p.1 == k then (k, v) else p)
  else m ++ [(k, v)]

/-- A bias indicator as returned by the three `detect*Bias` methods
(presentational `description` omitted). -/
structure BiasIndicator where
  type : String
  frequency : Nat
  biased : Bool
  score : ℚ
  deriving DecidableEq, Repr

/-- The `source_${ipPattern}` key of `detectSourceIpBias`
(`ipPattern = sourceIp?.split('.')[0]`; a missing source address yields
the key `source_undefined`). -/
def sourceIpKey : Option String → String
  | some s => "source_" ++ String.mk (s.toList.takeWhile (fun c => c != '.'))
  | none => "source_undefined"

/-- `ExplainabilityEngine.detectSourceIpBias`: increment the counter for
the source's first octet, then report `biased` when the incremented count
exceeds 50 (score 0.3 when biased, 0.05 otherwise). -/
def detectSourceIpBias (m : List (String × Nat)) (sourceIp : Option String) :
    BiasIndicator × List (String × Nat) :=
  let key := sourceIpKey sourceIp
  let count := (mapGet m key).getD 0 + 1
  let m' := mapSet m key count
  let bias := decide (count > 50)
  ({ type := "source_ip_concentration", frequency := count, biased := bias,
     score := if bias then Rat.divInt 3 10 else Rat.divInt 1 20 }, m')

/-- The `biased` flags produced by `n` successive `detectSourceIpBias`
calls for the same source address, starting from the empty counter map. -/
def biasSeq (sourceIp : Option String) (n : Nat) : List Bool :=
  (go n [] ).1.reverse
where
  go : Nat → List (String × Nat) → List Bool × List (String × Nat)
    | 0, m => ([], m)
    | k + 1, m =>
      let p := detectSourceIpBias m sourceIp
      let rest := go k p.2
      (rest.1 ++ [p.1.biased], rest.2)

/-- An explanation record (`ExplainabilityEngine.explainPrediction`);
only the identity-carrying fields are modelled, the attached reasoning
objects are presentational. -/
structure Explanation where
  threatId : Option Nat := none
  threatType : String := ""
  prediction : String := ""
  confidence : ℚ := 0
  deriving DecidableEq, Repr

/-- Lines 29–32 of `ExplainabilityEngine.explainPrediction`: push the new
explanation onto `predictionExplanations`, and `shift()` the oldest entry
off when the length exceeds 1000. -/
def recordExplanation (e : Explanation) (history : List Explanation) :
    List Explanation :=
  if (history ++ [e]).length > 1000 then (history ++ [e]).tail
  else history ++ [e]

/-! ## IncidentResponseOrchestrator -/

/-- A response action (timestamps omitted). -/
structure ResponseAction where
  action : String
  target : Option String := none
  recipient : Option String := none
  message : Option String := none
  duration : Option Nat := none
  scope : Option String := none
  severity : Option String := none
  pattern : Option String := none
  incidentId : Option Nat := none
  status : String
  deriving DecidableEq, Repr

/-- Missing-field display used where the source interpolates a possibly
`undefined` value into a template string. -/
def showOpt (o : Option String) : String := o.getD "undefined"

/-- `IncidentResponseOrchestrator.handleDDoS`. -/
def handleDDoS (t : Threat) (alertEmail : Option String) : List ResponseAction :=
  [ { action := "rate_limiting", target := t.source_ip, status := "enabled" },
    { action := "ip_blocking", target := t.source_ip, status := "enabled" },
    { action := "traffic_filtering", target := t.destination_ip, status := "enabled" },
    { action := "alert_notification",
      recipient := some (alertEmail.getD "admin@sentinel.local"),
      message := some ("DDoS attack detected from " ++ showOpt t.source_ip ++
        ". Automatic mitigation activated."),
      status := "pending" } ]

/-- Target string `${source_ip}:${port}` used by several strategies. -/
def ipPortTarget (t : Threat) : String :=
  showOpt t.source_ip ++ ":" ++ (t.port.map toString).getD "undefined"

/-- `IncidentResponseOrchestrator.handleIntrusion`. -/
def handleIntrusion (t : Threat) (incidentId : Nat) : List ResponseAction :=
  [ { action := "isolate_source", target := t.source_ip, status := "enabled" },
    { action := "capture_traffic", target := some (ipPortTarget t),
      duration := some 3600, status := "enabled" },
    { action := "enable_forensics", incidentId := some incidentId, status := "enabled" },
    { action := "escalate_alert", severity := some "Critical", status := "pending" } ]

/-- `IncidentResponseOrchestrator.handleMalware`. -/
def handleMalware (t : Threat) : List ResponseAction :=
  [ { action := "quarantine_process", target := t.source_ip, status := "enabled" },
    { action := "isolate_host", target := t.source_ip, duration := some 86400,
      status := "enabled" },
    { action := "initiate_scan", scope := some "network_wide", status := "enabled" },
    { action := "update_signatures", status := "enabled" } ]

/-- `IncidentResponseOrchestrator.handleCredentialCompromise`. -/
def handleCredentialCompromise (t : Threat) : List ResponseAction :=
  [ { action := "force_password_reset", scope := some "affected_users",
      status := "enabled" },
    { action := "revoke_sessions", target := t.source_ip, status := "enabled" },
    { action := "enable_mfa", scope := some "affected_accounts", status := "enabled" },
    { action := "audit_access", duration := some 86400, status := "enabled" } ]

/-- `IncidentResponseOrchestrator.handleSuspiciousConnection`. -/
def handleSuspiciousConnection (t : Threat) : List ResponseAction :=
  [ { action := "monitor_connection", target := some (ipPortTarget t),
      duration := some 3600, status := "enabled" },
    { action := "enable_logging", target := t.source_ip, status := "enabled" },
    { action := "create_alert_rule", pattern := t.source_ip, status := "enabled" } ]

/-- `IncidentResponseOrchestrator.defaultResponse`. -/
def defaultResponse (t : Threat) : List ResponseAction :=
  [ { action := "log_event", target := t.id.map toString, status := "enabled" },
    { action := "create_alert", severity := some t.severity, status := "enabled" } ]

/-- The strategy table of the orchestrator's constructor
(`responseStrategies`), dispatched on `threat.type`. -/
def responseStrategy (t : Threat) (incidentId : Nat) (alertEmail : Option String) :
    Option (List ResponseAction) :=
  if t.type = "DDoS" then some (handleDDoS t alertEmail)
  else if t.type = "Intrusion" then some (handleIntrusion t incidentId)
  else if t.type = "Malware" then some (handleMalware t)
  else if t.type = "Credential Compromise" then some (handleCredentialCompromise t)
  else if t.type = "Suspicious Connection" then some (handleSuspiciousConnection t)
  else none

/-- A database write performed by the incident code paths. -/
inductive DbOp where
  | insertIncident (threatId : Option Nat) (status response : String)
  | updateIncident (incidentId : Nat) (responses : List ResponseAction)
  deriving DecidableEq, Repr

/-- Result of `orchestrateResponse` when it completes. -/
structure OrchestrationResult where
  incidentId : Nat
  responses : List ResponseAction
  status : String
  deriving DecidableEq, Repr

/-- `IncidentResponseOrchestrator.orchestrateResponse`.  `createResult`
is the outcome of the `createIncident` database insert (`none` on a
database error, in which case the method logs and returns `null`).  The
returned list is the log of database writes attempted.  No code path of
the method throws: `createIncident` resolves `null` instead of rejecting,
and the strategy handlers are total, so the embedding is a total
function. -/
def orchestrateResponse (createResult : Option Nat) (alertEmail : Option String)
    (t : Threat) : Option OrchestrationResult × List DbOp :=
  let insertOp := DbOp.insertIncident t.id "Active" "Automated response initiated"
  match createResult with
  | none => (none, [insertOp])
  | some incidentId =>
    match responseStrategy t incidentId alertEmail with
    | none =>
      (some { incidentId := incidentId, responses := defaultResponse t,
              status := "initiated" }, [insertOp])
    | some responses =>
      (some { incidentId := incidentId, responses := responses, status := "initiated" },
       [insertOp, DbOp.updateIncident incidentId responses])

/-- The fallback insert of `ThreatDetector.createIncidents`'s `catch`
branch. -/
def fallbackInsert (t : Threat) : DbOp :=
  DbOp.insertIncident t.id "Open" "Automated alert sent"

/-- Whether a database write is the minimal fallback incident insert. -/
def isFallbackInsert : DbOp → Bool
  | .insertIncident _ status response =>
    status == "Open" && response == "Automated alert sent"
  | .updateIncident _ _ => false

/-- The body of `ThreatDetector.createIncidents` for one threat: only
High/Critical threats with a persisted id are orchestrated; the `catch`
fallback runs only when `orchestrateResponse` throws, which no modelled
path does (`Except.error` is unreachable), so the fallback insert is
reached on no input. -/
def createIncidentOne (createResult : Option Nat) (t : Threat) : List DbOp :=
  if (t.severity == "High" || t.severity == "Critical") && t.id.isSome then
    match (Except.ok (orchestrateResponse createResult none t) :
        Except String (Option OrchestrationResult × List DbOp)) with
    | .ok p => p.2
    | .error _ => [fallbackInsert t]
  else []

/-- `ThreatDetector.createIncidents` over a batch; `createResult i` is the
outcome of the incident insert attempted for the `i`-th threat of the
batch. -/
def createIncidents (createResult : Nat → Option Nat) : List Threat → List DbOp
  | [] => []
  | t :: ts =>
    createIncidentOne (createResult 0) t ++
      createIncidents (fun i => createResult (i + 1)) ts

/-! ## Concrete instances used to instantiate the theorems -/

/-- A benign low-severity threat that matches no rule. -/
def tBase : Threat :=
  { type := "Benign", severity := "Low", description := "ok", port := some 9999 }

/-- A threat satisfying the deterministic part of the
`rule_ddos_detection` condition. -/
def tSus : Threat :=
  { type := "Suspicious Connection", severity := "High", description := "x" }

/-- A threat firing only `rule_data_exfiltration`, whose `isolate` action
records the wall-clock `startTime` in its applied-rule result. -/
def tData : Threat :=
  { type := "Benign", severity := "Low", description := "data" }

/-- A persisted DDoS threat. -/
def tDDoS : Threat :=
  { id := some 7, type := "DDoS", severity := "High", description := "flood",
    source_ip := some "1.2.3.4", destination_ip := some "5.6.7.8" }

/-- A persisted high-severity threat used for the incident-creation
failure analysis. -/
def tHigh : Threat :=
  { id := some 1, type := "DDoS", severity := "High", description := "flood" }

/-- A threat hitting port 3306 with High severity whose type matches no
`database` threat-type substring. -/
def tC8 : Threat :=
  { type := "DDoS", severity := "High", description := "d", port := some 3306 }

/-- A threat hitting port 3306 with High severity whose type matches the
`database` asset category. -/
def tC8w : Threat :=
  { type := "Intrusion", severity := "High", description := "d", port := some 3306 }

/-- A history entry carrying only a timestamp. -/
def tempThreat (ts : ℚ) : Threat :=
  { type := "T", severity := "Low", description := "", timestamp := ts }

/-- A three-entry behavioral profile with inter-arrival gaps 10 and 40. -/
def profileC6 : Profile :=
  { patterns := [tempThreat 0, tempThreat 10, tempThreat 50], count := 3 }

/-- A single-entry behavioral profile. -/
def profileShort : Profile :=
  { patterns := [tempThreat 0], count := 1 }

/-- An empty explanation record. -/
def e0 : Explanation := {}

/-- Behavioral-score oracle flagging exactly the High-severity threats. -/
def bScoreW : Threat → ℚ := fun t => if t.severity == "High" then 1 else 0

/-- The record produced by the full classification pipeline for `tBase`
under all-zero oracles. -/
def uBase : Threat :=
  { tBase with behavioralAnomalyScore := some 0,
               aiPrediction := some "Normal Pattern",
               confidence := Rat.divInt 1 2,
               recommendation := some "Log for reference" }

/-! ## Shared lemmas -/

theorem sevLE_refl (a : String) : sevLE a a = true := by
  unfold sevLE
  cases h : sevRank a <;> simp

theorem sevLE_trans {a b c : String} (h₁ : sevLE a b = true) (h₂ : sevLE b c = true) :
    sevLE a c = true := by
  unfold sevLE at *
  cases ha : sevRank a <;> cases hb : sevRank b <;> cases hc : sevRank c <;>
    simp_all
  omega

theorem severityWeight_bounds (s : String) :
    Rat.divInt 1 4 ≤ severityWeight s ∧ severityWeight s ≤ 1 := by
  unfold severityWeight
  split <;> constructor <;> norm_num [Rat.divInt_eq_div]

/-! ## C4: the risk score stays in the unit interval -/

/-- C4 (confirmed).  For every threat and every asset — any combination of
port match, type match, and severity, unknown severity strings included —
the `riskScore` returned by `assessThreatToAsset` lies in `[0, 1]`. -/
theorem assessThreatToAsset_riskScore_unit (t : Threat) (a : Asset) :
    0 ≤ (assessThreatToAsset t a).riskScore ∧ (assessThreatToAsset t a).riskScore ≤ 1 := by
  have hw := severityWeight_bounds t.severity
  have hraw : 0 ≤ rawRiskScore t a := by
    unfold rawRiskScore
    have h1 : (0 : ℚ) ≤ (if portMatches t a then Rat.divInt 1 2 else Rat.divInt 1 5) := by
      split <;> norm_num [Rat.divInt_eq_div]
    have h2 : (0 : ℚ) ≤
        (if threatTypeMatchesAsset t.type a.type then Rat.divInt 3 10 else 0) := by
      split <;> norm_num [Rat.divInt_eq_div]
    have h3 : (0 : ℚ) ≤ severityWeight t.severity :=
      le_trans (by norm_num [Rat.divInt_eq_div]) hw.1
    linarith
  constructor
  · exact le_min hraw (by norm_num)
  · exact min_le_right _ _

/-! ## C3: the DDoS response plan -/

/-- C3 (confirmed).  For every threat of type `DDoS` for which incident
creation succeeds, `orchestrateResponse` returns the `handleDDoS` plan of
exactly 4 actions whose kinds are, in order: `rate_limiting`,
`ip_blocking`, `traffic_filtering`, `alert_notification`. -/
theorem orchestrateResponse_ddos (t : Threat) (cid : Nat) (cfg : Option String)
    (h : t.type = "DDoS") :
    (orchestrateResponse (some cid) cfg t).1 =
      some { incidentId := cid, responses := handleDDoS t cfg, status := "initiated" } ∧
    (handleDDoS t cfg).length = 4 ∧
    (handleDDoS t cfg).map (fun r => r.action) =
      ["rate_limiting", "ip_blocking", "traffic_filtering", "alert_notification"] := by
  refine ⟨?_, rfl, rfl⟩
  simp [orchestrateResponse, responseStrategy, h]

/-- Witness for C3 at a concrete DDoS threat. -/
theorem orchestrateResponse_ddos_witness :
    (orchestrateResponse (some 1) none tDDoS).1 =
      some { incidentId := 1, responses := handleDDoS tDDoS none, status := "initiated" } ∧
    (handleDDoS tDDoS none).length = 4 ∧
    (handleDDoS tDDoS none).map (fun r => r.action) =
      ["rate_limiting", "ip_blocking", "traffic_filtering", "alert_notification"] :=
  orchestrateResponse_ddos tDDoS 1 none rfl

/-! ## C9: bounded FIFO explanation history -/

theorem recordExplanation_length_le (e : Explanation) (s : List Explanation)
    (h : s.length ≤ 1000) : (recordExplanation e s).length ≤ 1000 := by
  unfold recordExplanation
  split
  · simpa using h
  · simp_all

/-- C9 (confirmed).  For every sequence of `explainPrediction` calls the
retained explanation history has length at most 1000 after each call, and
once the cap is reached each new explanation evicts the oldest entry
first (FIFO). -/
theorem explanation_history_bounded_fifo :
    (∀ (es s : List Explanation), s.length ≤ 1000 →
      (es.foldl (fun h e => recordExplanation e h) s).length ≤ 1000) ∧
    (∀ (e : Explanation) (s : List Explanation), s.length = 1000 →
      recordExplanation e s = s.tail ++ [e]) := by
  constructor
  · intro es
    induction es with
    | nil => intro s h; simpa using h
    | cons e es ih =>
      intro s h
      simpa using ih _ (recordExplanation_length_le e s h)
  · intro e s h
    unfold recordExplanation
    rw [if_pos (by simp; omega)]
    cases s with
    | nil => simp at h
    | cons x s => rfl

/-- Witness for C9: the bound at the empty history, and FIFO eviction at a
full (1000-entry) history. -/
theorem explanation_history_bounded_fifo_witness :
    ((([] : List Explanation).foldl (fun h e => recordExplanation e h) []).length ≤ 1000) ∧
    recordExplanation e0 (List.replicate 1000 e0) = (List.replicate 1000 e0).tail ++ [e0] :=
  ⟨explanation_history_bounded_fifo.1 [] [] (by decide),
   explanation_history_bounded_fifo.2 e0 (List.replicate 1000 e0) (by simp)⟩

/-! ## C7: source-octet bias trigger on the 51st observation -/

/-- C7 (confirmed).  Starting from empty bias counters, 51 calls of the
source-IP bias detector with source address `10.0.0.5` report
`biased = false` on each of the first 50 calls and `biased = true`
exactly on the 51st (the `count > 50` test is applied after
incrementing). -/
theorem sourceIpBias_triggers_on_51st :
    biasSeq (some "10.0.0.5") 51 = List.replicate 50 false ++ [true] := by decide

/-! ## C5: incident-creation failure handling -/

theorem createIncidentOne_no_fallback (r : Option Nat) (t : Threat) :
    (createIncidentOne r t).all (fun op => !(isFallbackInsert op)) = true := by
  unfold createIncidentOne orchestrateResponse
  split
  · cases r with
    | none => simp [isFallbackInsert]
    | some cid =>
      cases h : responseStrategy t cid none <;> simp [h, isFallbackInsert]
  · rfl

/-- C5 counterexample.  For the persisted High-severity threat `tHigh`,
when the incident insert fails (`createResult = none`) the batch loop
attempts only the orchestrator's own insert: no minimal fallback record
(`status "Open"`, `response "Automated alert sent"`) is ever inserted,
contradicting the claimed fallback. -/
theorem createIncidents_no_fallback_on_insert_failure :
    createIncidents (fun _ => none) [tHigh] =
      [DbOp.insertIncident (some 1) "Active" "Automated response initiated"] ∧
    fallbackInsert tHigh ∉ createIncidents (fun _ => none) [tHigh] := by
  constructor <;> decide

/-- C5 (corrected).  If incident creation fails inside
`orchestrateResponse`, orchestration aborts for that threat
(`orchestrateResponse` returns `null`); the caller then merely skips the
threat — the minimal fallback insert is reached only when
`orchestrateResponse` throws, which no code path does, so no run of
`createIncidents` ever performs it.  The failure never propagates to
abort the surrounding batch: `createIncidents` processes a batch
append-compositionally, each threat consuming its own insert outcome. -/
theorem createIncidents_failure_policy :
    (∀ (cfg : Option String) (t : Threat), (orchestrateResponse none cfg t).1 = none) ∧
    (∀ (f : Nat → Option Nat) (ts : List Threat),
      (createIncidents f ts).all (fun op => !(isFallbackInsert op)) = true) ∧
    (∀ (f : Nat → Option Nat) (ts us : List Threat),
      createIncidents f (ts ++ us) =
        createIncidents f ts ++ createIncidents (fun i => f (i + ts.length)) us) := by
  refine ⟨fun _ _ => rfl, ?_, ?_⟩
  · intro f ts
    induction ts generalizing f with
    | nil => rfl
    | cons t ts ih =>
      rw [createIncidents, List.all_append]
      rw [createIncidentOne_no_fallback, ih]
      rfl
  · intro f ts us
    induction ts generalizing f with
    | nil =>
      simp only [List.nil_append, createIncidents, List.length_nil]
      rfl
    | cons t ts ih =>
      simp only [List.cons_append, createIncidents, List.length_cons,
        List.append_assoc, List.append_eq]
      rw [ih]
      simp only [Nat.add_assoc]

/-! ## C8: port-3306 High-severity threat against the database asset -/

/-- C8 counterexample.  The threat `tC8` targets port 3306 with severity
High and is assessed against the registry's `database` asset (whose port
set includes 3306), yet its un-capped risk sum is `0.5 + 0 + 0.75`,
strictly below the claimed `0.5 + 0.3 + 0.75`: the type-match weight is
not earned because the threat type `DDoS` contains none of the
`database` threat-type substrings. -/
theorem assess_port3306_sum_cex :
    tC8.port = some 3306 ∧ tC8.severity = "High" ∧
    assetDatabase.ports.contains 3306 = true ∧
    rawRiskScore tC8 assetDatabase <
      Rat.divInt 1 2 + Rat.divInt 3 10 + Rat.divInt 3 4 := by
  refine ⟨rfl, rfl, rfl, ?_⟩
  have hport : portMatches tC8 assetDatabase = true := by decide
  have htype : threatTypeMatchesAsset tC8.type assetDatabase.type = false := by decide
  unfold rawRiskScore
  rw [hport, htype]
  show (Rat.divInt 1 2 + 0 + severityWeight "High") < _
  unfold severityWeight
  norm_num [Rat.divInt_eq_div]

/-- C8 (corrected).  For every threat with port 3306 and severity High
assessed against an asset whose port set includes 3306,
`assessThreatToAsset` returns `isDirectThreat = true`; and provided the
threat's type additionally matches the asset's category (which the
original claim omitted, and which fails e.g. for a `DDoS` threat against
the `database` asset), the un-capped risk sum
(port weight + type-match weight + severity weight) is at least
`0.5 + 0.3 + 0.75`. -/
theorem assess_port3306_direct_and_sum (t : Threat) (a : Asset)
    (hport : t.port = some 3306) (hsev : t.severity = "High")
    (hports : a.ports.contains 3306 = true) :
    (assessThreatToAsset t a).isDirectThreat = true ∧
    (threatTypeMatchesAsset t.type a.type = true →
      Rat.divInt 1 2 + Rat.divInt 3 10 + Rat.divInt 3 4 ≤ rawRiskScore t a) := by
  have hpm : portMatches t a = true := by
    unfold portMatches
    rw [hport]
    exact hports
  constructor
  · show portMatches t a = true
    exact hpm
  · intro htype
    unfold rawRiskScore
    rw [hpm, htype, hsev]
    show _ ≤ Rat.divInt 1 2 + Rat.divInt 3 10 + severityWeight "High"
    unfold severityWeight
    norm_num [Rat.divInt_eq_div]

/-- Witness for C8 at an `Intrusion` threat on port 3306 against the
`database` asset. -/
theorem assess_port3306_direct_and_sum_witness :
    (assessThreatToAsset tC8w assetDatabase).isDirectThreat = true ∧
    (threatTypeMatchesAsset tC8w.type assetDatabase.type = true →
      Rat.divInt 1 2 + Rat.divInt 3 10 + Rat.divInt 3 4 ≤
        rawRiskScore tC8w assetDatabase) :=
  assess_port3306_direct_and_sum tC8w assetDatabase rfl rfl (by decide)

/-! ## C2: determinism of `applyRules` -/

theorem foldl_cons_cond_false (r : Rule) (rs : List Rule)
    (p : Threat × List AppliedRule) (rnd : ℚ) (now : String)
    (h : r.condition rnd p.1 = false) :
    (r :: rs).foldl (applyRuleStep rnd now) p = rs.foldl (applyRuleStep rnd now) p := by
  simp only [List.foldl]
  unfold applyRuleStep
  rw [h]
  simp

theorem foldl_rnd_irrelevant (rules : List Rule)
    (h : ∀ r ∈ rules, ∀ (x y : ℚ) (t : Threat), r.condition x t = r.condition y t)
    (x y : ℚ) (now : String) :
    ∀ p, rules.foldl (applyRuleStep x now) p = rules.foldl (applyRuleStep y now) p := by
  induction rules with
  | nil => intro p; rfl
  | cons r rs ih =>
    intro p
    simp only [List.foldl]
    rw [show applyRuleStep x now p r = applyRuleStep y now p r from by
      unfold applyRuleStep; rw [h r (by simp) x y p.1]]
    exact ih (fun r hr => h r (List.mem_cons_of_mem _ hr)) _

theorem applyRulesOne_appliedRules (rules : List Rule) (rnd : ℚ) (now : String)
    (t : Threat) :
    (applyRulesOne rules rnd now t).appliedRules =
      (rules.foldl (applyRuleStep rnd now) (t, [])).2 := rfl

theorem foldl_appliedRules_order (rules : List Rule) (rnd : ℚ) (now : String) :
    ∀ (t : Threat) (acc : List AppliedRule), ∃ extra,
      (rules.foldl (applyRuleStep rnd now) (t, acc)).2 = acc ++ extra ∧
      (extra.map (fun e => e.ruleId)).Sublist (rules.map (fun r => r.id)) := by
  induction rules with
  | nil => exact fun t acc => ⟨[], by simp, by simp⟩
  | cons r rs ih =>
    intro t acc
    simp only [List.foldl, List.map_cons]
    by_cases hc : (r.enabled && r.condition rnd (t, acc).1) = true
    · rw [show applyRuleStep rnd now (t, acc) r =
          ((executeAction r.action now t).1,
           acc ++ [{ ruleId := r.id, ruleName := r.name,
                     action := r.action.typeName,
                     result := (executeAction r.action now t).2 }]) from by
        unfold applyRuleStep; rw [if_pos hc]]
      obtain ⟨extra, he, hs⟩ := ih (executeAction r.action now t).1
        (acc ++ [{ ruleId := r.id, ruleName := r.name,
                   action := r.action.typeName,
                   result := (executeAction r.action now t).2 }])
      refine ⟨{ ruleId := r.id, ruleName := r.name, action := r.action.typeName,
                result := (executeAction r.action now t).2 } :: extra, ?_, ?_⟩
      · rw [he, List.append_assoc]
        rfl
      · simpa using List.Sublist.cons₂ r.id hs
    · rw [show applyRuleStep rnd now (t, acc) r = (t, acc) from by
        unfold applyRuleStep; rw [if_neg hc]]
      obtain ⟨extra, he, hs⟩ := ih t acc
      exact ⟨extra, he, List.Sublist.cons _ hs⟩

/-- C2 counterexample, exhibiting both nondeterminism channels of the
engine.  On `tSus` (`type = "Suspicious Connection"`,
`severity = "High"`) two evaluations at the same clock whose hidden
`Math.random()` draws differ (0 versus 1) yield different `appliedRules`
sequences — one fires `rule_ddos_detection`, the other fires nothing.
And on `tData` (description containing "data", not satisfying the DDoS
guard) two evaluations at the same draw but different clock readings
record different `startTime`s in the isolation result of
`rule_data_exfiltration`.  Equal engine inputs therefore do not determine
the `appliedRules` sequence. -/
theorem applyRules_nondeterministic_cex :
    ((applyRulesOne defaultRules 0 "2024-01-01T00:00:00.000Z" tSus).appliedRules =
      [{ ruleId := "rule_ddos_detection", ruleName := "DDoS Detection",
         action := "escalate", result := .escalated "Critical" }] ∧
     (applyRulesOne defaultRules 1 "2024-01-01T00:00:00.000Z" tSus).appliedRules =
       []) ∧
    ((applyRulesOne defaultRules 1 "2024-01-01T00:00:00.000Z" tData).appliedRules =
      [{ ruleId := "rule_data_exfiltration", ruleName := "Data Exfiltration Detection",
         action := "isolate",
         result := .isolation 3600 "2024-01-01T00:00:00.000Z" }] ∧
     (applyRulesOne defaultRules 1 "2024-01-01T00:00:01.000Z" tData).appliedRules =
      [{ ruleId := "rule_data_exfiltration", ruleName := "Data Exfiltration Detection",
         action := "isolate",
         result := .isolation 3600 "2024-01-01T00:00:01.000Z" }]) := by
  refine ⟨⟨?_, ?_⟩, ?_, ?_⟩ <;> decide

/-- C2 (corrected).  `applyRules` is a pure function of the threat, the
rule set, the pseudo-random draw consumed by `rule_ddos_detection`, and
the wall-clock reading recorded as `startTime` by an executed `isolate`
action; at a fixed clock reading, for every threat that does not satisfy
the DDoS rule's deterministic guard (`type = "Suspicious Connection"`
and `severity = "High"`), the result — in particular the `appliedRules`
sequence — is independent of the draw, and the recorded rule ids always
appear in registration order (a sublist of the catalog's id sequence).
The original unconditional call-to-call determinism fails both through
the random draw (guard-satisfying threats) and through the recorded
`startTime` (threats firing `rule_data_exfiltration`); see the
counterexample. -/
theorem applyRules_deterministic_modulo_draw :
    (∀ (r₁ r₂ : ℚ) (now : String) (t : Threat),
      ¬(t.type = "Suspicious Connection" ∧ t.severity = "High") →
      applyRulesOne defaultRules r₁ now t = applyRulesOne defaultRules r₂ now t) ∧
    (∀ (rnd : ℚ) (now : String) (t : Threat),
      ((applyRulesOne defaultRules rnd now t).appliedRules.map
        (fun e => e.ruleId)).Sublist (defaultRules.map (fun r => r.id))) := by
  constructor
  · intro r₁ r₂ now t hc
    have hab : (t.type == "Suspicious Connection" && t.severity == "High") = false := by
      by_cases h1 : t.type = "Suspicious Connection" <;>
        by_cases h2 : t.severity = "High" <;> simp [h1, h2]
      exact hc ⟨h1, h2⟩
    have hdd : ∀ rnd : ℚ, ruleDdosDetection.condition rnd t = false := by
      intro rnd
      show (t.type == "Suspicious Connection" && t.severity == "High" &&
        decide (rnd < Rat.divInt 3 10)) = false
      rw [hab]
      simp
    have hrest : ∀ r ∈ [rulePrivilegeEscalation, ruleDataExfiltration, ruleBruteForce,
        ruleMalwareSignature, ruleSqlInjection, rulePortScanning, ruleCriticalService],
        ∀ (x y : ℚ) (u : Threat), r.condition x u = r.condition y u := by
      intro r hr x y u
      simp only [List.mem_cons, List.not_mem_nil, or_false] at hr
      rcases hr with rfl | rfl | rfl | rfl | rfl | rfl | rfl <;> rfl
    unfold applyRulesOne defaultRules
    rw [foldl_cons_cond_false ruleDdosDetection _ _ r₁ now (hdd r₁),
      foldl_cons_cond_false ruleDdosDetection _ _ r₂ now (hdd r₂),
      foldl_rnd_irrelevant _ hrest r₁ r₂ now]
  · intro rnd now t
    obtain ⟨extra, he, hs⟩ := foldl_appliedRules_order defaultRules rnd now t []
    rw [applyRulesOne_appliedRules, he]
    simpa using hs

/-- Witness for C2: the draw-independence at the benign threat `tBase`
(at a fixed clock reading) and the registration-order sublist at a
concrete draw and clock. -/
theorem applyRules_deterministic_modulo_draw_witness :
    applyRulesOne defaultRules 0 "2024-01-01T00:00:00.000Z" tBase =
      applyRulesOne defaultRules 1 "2024-01-01T00:00:00.000Z" tBase ∧
    ((applyRulesOne defaultRules 0 "2024-01-01T00:00:00.000Z" tBase).appliedRules.map
      (fun e => e.ruleId)).Sublist (defaultRules.map (fun r => r.id)) :=
  ⟨applyRules_deterministic_modulo_draw.1 0 1 "2024-01-01T00:00:00.000Z" tBase
     (by decide),
   applyRules_deterministic_modulo_draw.2 0 "2024-01-01T00:00:00.000Z" tBase⟩

/-! ## C6: the temporal-anomaly feature -/

theorem ite_one_eq_one_iff {C : Prop} [Decidable C] :
    ((if C then (1 : ℚ) else 0) = 1) ↔ C := by
  split_ifs with h
  · exact iff_of_true rfl h
  · exact iff_of_false (by norm_num) h

theorem interArrivalGaps_eq_zip (l : List Threat) :
    interArrivalGaps l =
      (l.zip l.tail).map (fun q => q.2.timestamp - q.1.timestamp) := by
  induction l with
  | nil => rfl
  | cons a l ih =>
    cases l with
    | nil => rfl
    | cons b l2 =>
      simp only [interArrivalGaps, List.tail_cons, List.zip_cons_cons, List.map_cons]
      rw [ih]
      simp

/-- C6 counterexample.  On a profile with history timestamps 0, 10, 50
(gaps 10 and 40) the code's feature is 0 — it compares the last gap
against the mean 25 of all gaps, giving ratio 3/5 — while the claimed
rule (mean of the prior gaps only, here 10) flags an anomaly, since
|40 − 10| = 30 exceeds 2 × 10. -/
theorem temporal_anomaly_spec_divergence :
    calculateTemporalAnomaly (some profileC6) = 0 ∧
    temporalAnomalySpec (some profileC6) = 1 := by
  constructor
  · unfold calculateTemporalAnomaly profileC6 tempThreat
    simp only [interArrivalGaps, List.length_cons, List.foldl, List.getLast?,
      Option.getD_some]
    norm_num
  · unfold temporalAnomalySpec profileC6 tempThreat
    simp only [interArrivalGaps, List.length_cons, List.foldl, List.getLast?,
      List.dropLast, Option.getD_some]
    norm_num

/-- C6 (corrected).  For every profile with at least 2 history entries the
temporal-anomaly feature is 1 exactly when the absolute deviation of the
most recent inter-arrival gap from the mean of all gaps (the most recent
gap included — not, as claimed, of the prior gaps only), divided by that
mean (with divisor 1 substituted when the mean is zero), exceeds 2; with
fewer than 2 entries the feature is 0. -/
theorem temporal_anomaly_characterization :
    (∀ p : Profile, 2 ≤ p.patterns.length →
      (calculateTemporalAnomaly (some p) = 1 ↔
        (let gaps := (p.patterns.zip p.patterns.tail).map
            (fun q => q.2.timestamp - q.1.timestamp)
         let avg := gaps.foldl (· + ·) 0 / (gaps.length : ℚ)
         |(gaps.getLast?).getD 0 - avg| / (if avg = 0 then 1 else avg) > 2))) ∧
    (∀ p : Profile, p.patterns.length < 2 → calculateTemporalAnomaly (some p) = 0) := by
  constructor
  · intro p hlen
    simp only [calculateTemporalAnomaly]
    rw [if_neg (by omega), interArrivalGaps_eq_zip]
    exact ite_one_eq_one_iff
  · intro p hlen
    simp only [calculateTemporalAnomaly]
    rw [if_pos hlen]

/-- Witness for C6: the characterization at the concrete profile with
gaps 10 and 40, and the short-history case at a one-entry profile. -/
theorem temporal_anomaly_characterization_witness :
    (calculateTemporalAnomaly (some profileC6) = 1 ↔
      (let gaps := (profileC6.patterns.zip profileC6.patterns.tail).map
          (fun q => q.2.timestamp - q.1.timestamp)
       let avg := gaps.foldl (· + ·) 0 / (gaps.length : ℚ)
       |(gaps.getLast?).getD 0 - avg| / (if avg = 0 then 1 else avg) > 2)) ∧
    calculateTemporalAnomaly (some profileShort) = 0 :=
  ⟨temporal_anomaly_characterization.1 profileC6 (by decide),
   temporal_anomaly_characterization.2 profileShort (by decide)⟩

/-! ## Flag- and severity-preservation lemmas for the pipeline stages -/

theorem applyRuleStep_isBehavioralAnomaly (rnd : ℚ) (now : String)
    (p : Threat × List AppliedRule) (r : Rule) :
    (applyRuleStep rnd now p r).1.isBehavioralAnomaly =
      p.1.isBehavioralAnomaly := by
  unfold applyRuleStep
  split
  · cases r.action <;> rfl
  · rfl

theorem foldl_isBehavioralAnomaly (rules : List Rule) (rnd : ℚ) (now : String) :
    ∀ p : Threat × List AppliedRule,
      ((rules.foldl (applyRuleStep rnd now) p).1).isBehavioralAnomaly =
        p.1.isBehavioralAnomaly := by
  induction rules with
  | nil => intro p; rfl
  | cons r rs ih =>
    intro p
    rw [List.foldl, ih, applyRuleStep_isBehavioralAnomaly]

theorem applyRulesOne_isBehavioralAnomaly (rules : List Rule) (rnd : ℚ)
    (now : String) (t : Threat) :
    (applyRulesOne rules rnd now t).isBehavioralAnomaly = t.isBehavioralAnomaly :=
  foldl_isBehavioralAnomaly rules rnd now (t, [])

theorem classifyOne_isBehavioralAnomaly (t : Threat) :
    (classifyOne t).isBehavioralAnomaly = t.isBehavioralAnomaly := by
  show (classifyEscalate t).isBehavioralAnomaly = _
  unfold classifyEscalate
  split <;> rfl

theorem applyRules_mem_exists (rules : List Rule) :
    ∀ (l : List Threat) (rnd : Nat → ℚ) (nowf : Nat → String) (u : Threat),
      u ∈ applyRules rules rnd nowf l →
      ∃ v ∈ l, ∃ (r : ℚ) (now : String), u = applyRulesOne rules r now v := by
  intro l
  induction l with
  | nil => intro rnd nowf u hu; simp [applyRules] at hu
  | cons t ts ih =>
    intro rnd nowf u hu
    rw [applyRules] at hu
    rcases List.mem_cons.mp hu with rfl | hmem
    · exact ⟨t, by simp, rnd 0, nowf 0, rfl⟩
    · obtain ⟨v, hv, r, now, hr⟩ := ih _ _ u hmem
      exact ⟨v, List.mem_cons_of_mem _ hv, r, now, hr⟩

theorem behavioralSelect_mem_exists (bScore : Threat → ℚ) (l : List Threat)
    (v : Threat) (hv : v ∈ behavioralSelect bScore l) :
    ∃ w ∈ l, v = annotateBehavioral bScore w := by
  unfold behavioralSelect at hv
  split at hv
  · obtain ⟨w, hw, rfl⟩ := List.mem_map.mp (List.mem_filter.mp hv).1
    exact ⟨w, hw, rfl⟩
  · obtain ⟨w, hw, rfl⟩ := List.mem_map.mp hv
    exact ⟨w, hw, rfl⟩

/-! ## C10: the behavioral-anomaly filter drops unflagged threats -/

/-- C10 (confirmed).  `detectBehavioralAnomalies` returns exactly the
annotated threats whose model score exceeds 0.6; consequently, in
`classifyThreats`, when no threat of the batch is flagged the whole
(annotated) batch passes through, and when at least one threat is flagged
every threat surviving to the output carries the behavioral-anomaly flag —
the non-flagged ones are gone. -/
theorem behavioral_filter_keeps_only_flagged :
    (∀ (bScore : Threat → ℚ) (ts : List Threat) (u : Threat),
      u ∈ detectBehavioralAnomalies bScore ts ↔
        ∃ t ∈ ts, u = annotateBehavioral bScore t ∧ bScore t > Rat.divInt 3 5) ∧
    (∀ (bScore : Threat → ℚ) (ts : List Threat),
      (∀ t ∈ ts, ¬ bScore t > Rat.divInt 3 5) →
      behavioralSelect bScore ts = ts.map (annotateBehavioral bScore)) ∧
    (∀ (aiScore bScore : Threat → ℚ) (rnd : Nat → ℚ) (nowf : Nat → String)
        (ts : List Threat),
      (∃ t ∈ analyzeThreats aiScore ts, bScore t > Rat.divInt 3 5) →
      ∀ u ∈ classifyThreats true aiScore bScore rnd nowf ts,
        u.isBehavioralAnomaly = true) := by
  refine ⟨?_, ?_, ?_⟩
  · intro bScore ts u
    simp only [detectBehavioralAnomalies, List.mem_filter, List.mem_map]
    constructor
    · rintro ⟨⟨t, ht, rfl⟩, hflag⟩
      refine ⟨t, ht, rfl, ?_⟩
      simpa [annotateBehavioral] using hflag
    · rintro ⟨t, ht, rfl, hgt⟩
      exact ⟨⟨t, ht, rfl⟩, by simpa [annotateBehavioral] using hgt⟩
  · intro bScore ts hall
    unfold behavioralSelect
    rw [show (ts.map (annotateBehavioral bScore)).filter
        (fun t => t.isBehavioralAnomaly) = [] from by
      rw [List.filter_eq_nil_iff]
      intro a ha
      obtain ⟨t, ht, rfl⟩ := List.mem_map.mp ha
      simpa [annotateBehavioral] using hall t ht]
    rfl
  · intro aiScore bScore rnd nowf ts hex u hu
    obtain ⟨t0, ht0, hgt0⟩ := hex
    have hne : ts.isEmpty = false := by
      cases ts with
      | nil => simp [analyzeThreats] at ht0
      | cons a l => rfl
    unfold classifyThreats at hu
    rw [hne] at hu
    simp only [Bool.false_eq_true, if_false] at hu
    obtain ⟨c, hc, rfl⟩ := List.mem_map.mp hu
    obtain ⟨v, hv, r, now, rfl⟩ := applyRules_mem_exists defaultRules _ rnd nowf c hc
    have hpos : 0 < (((analyzeThreats aiScore ts).map (annotateBehavioral bScore)).filter
        (fun t => t.isBehavioralAnomaly)).length := by
      refine List.length_pos_of_mem (a := annotateBehavioral bScore t0) ?_
      rw [List.mem_filter]
      refine ⟨List.mem_map_of_mem _ ht0, ?_⟩
      simpa [annotateBehavioral] using hgt0
    have hvflag : v.isBehavioralAnomaly = true := by
      unfold behavioralSelect at hv
      rw [if_pos hpos] at hv
      exact (List.mem_filter.mp hv).2
    rw [classifyOne_isBehavioralAnomaly, applyRulesOne_isBehavioralAnomaly, hvflag]

/-- Witness for C10: the membership characterization at a two-threat
batch, pass-through when nothing is flagged, and flag-only output when a
threat is flagged. -/
theorem behavioral_filter_keeps_only_flagged_witness :
    ((annotateBehavioral bScoreW tSus) ∈ detectBehavioralAnomalies bScoreW [tSus, tBase] ↔
      ∃ t ∈ [tSus, tBase], annotateBehavioral bScoreW tSus = annotateBehavioral bScoreW t ∧
        bScoreW t > Rat.divInt 3 5) ∧
    behavioralSelect bScoreW [tBase] = [tBase].map (annotateBehavioral bScoreW) ∧
    (∀ u ∈ classifyThreats true (fun _ => 0) bScoreW (fun _ => 1)
        (fun _ => "2024-01-01T00:00:00.000Z") [tSus],
      u.isBehavioralAnomaly = true) :=
  ⟨behavioral_filter_keeps_only_flagged.1 bScoreW [tSus, tBase] _,
   behavioral_filter_keeps_only_flagged.2.1 bScoreW [tBase] (by decide),
   behavioral_filter_keeps_only_flagged.2.2 (fun _ => 0) bScoreW (fun _ => 1)
     (fun _ => "2024-01-01T00:00:00.000Z") [tSus] (by decide)⟩

/-! ## C1: severity is monotone through the pipeline -/

theorem foldl_sev_mono (rules : List Rule)
    (hm : ∀ r ∈ rules, ∀ (rnd : ℚ) (now : String) (t : Threat),
      r.condition rnd t = true →
      sevLE t.severity (executeAction r.action now t).1.severity = true)
    (rnd : ℚ) (now : String) : ∀ p : Threat × List AppliedRule,
      sevLE p.1.severity ((rules.foldl (applyRuleStep rnd now) p).1).severity = true := by
  induction rules with
  | nil => intro p; exact sevLE_refl _
  | cons r rs ih =>
    intro p
    rw [List.foldl]
    refine sevLE_trans ?_
      (ih (fun r' hr' => hm r' (List.mem_cons_of_mem _ hr')) _)
    unfold applyRuleStep
    split
    · rename_i hcond
      exact hm r (by simp) rnd now p.1 (Bool.and_elim_right hcond)
    · exact sevLE_refl _

theorem defaultRules_sev_mono :
    ∀ r ∈ defaultRules, ∀ (rnd : ℚ) (now : String) (t : Threat),
      r.condition rnd t = true →
      sevLE t.severity (executeAction r.action now t).1.severity = true := by
  intro r hr rnd now t hc
  simp only [defaultRules, List.mem_cons, List.not_mem_nil, or_false] at hr
  rcases hr with rfl | rfl | rfl | rfl | rfl | rfl | rfl | rfl
  · have hsev : t.severity = "High" := by
      have hc' := hc
      simp only [ruleDdosDetection, Bool.and_eq_true, beq_iff_eq] at hc'
      exact hc'.1.2
    show sevLE t.severity "Critical" = true
    rw [hsev]
    decide
  all_goals exact sevLE_refl t.severity

theorem classifyOne_sev_mono (t : Threat) :
    sevLE t.severity (classifyOne t).severity = true := by
  show sevLE t.severity (classifyEscalate t).severity = true
  unfold classifyEscalate
  split
  · by_cases h1 : t.severity = "Low"
    · simp only [h1]
      decide
    · by_cases h2 : t.severity = "Medium"
      · simp only [h2]
        decide
      · show sevLE t.severity
          (if t.severity = "Low" then "Medium"
           else if t.severity = "Medium" then "High" else t.severity) = true
        rw [if_neg h1, if_neg h2]
        exact sevLE_refl _
  · exact sevLE_refl _

theorem applyRulesOne_severity (rules : List Rule) (rnd : ℚ) (now : String)
    (t : Threat) :
    (applyRulesOne rules rnd now t).severity =
      ((rules.foldl (applyRuleStep rnd now) (t, [])).1).severity := rfl

theorem applyRulesOne_sev_mono (rnd : ℚ) (now : String) (t : Threat) :
    sevLE t.severity (applyRulesOne defaultRules rnd now t).severity = true := by
  rw [applyRulesOne_severity]
  exact foldl_sev_mono defaultRules defaultRules_sev_mono rnd now (t, [])

/-- C1 (confirmed).  For every threat processed by the classification
pipeline with the default rule set (under arbitrary model-score,
AI-stage, random-draw and clock oracles), every output threat derives
from an input
threat whose severity it dominates in the order
Low < Medium < High < Critical: the behavioral escalation step only
promotes Low→Medium or Medium→High, the only `escalate` rule action sets
Critical (and fires only at severity High), and no stage ever lowers a
severity. -/
theorem pipeline_severity_monotone (aiOk : Bool) (aiScore bScore : Threat → ℚ)
    (rnd : Nat → ℚ) (nowf : Nat → String) (ts : List Threat) (u : Threat)
    (hu : u ∈ classifyThreats aiOk aiScore bScore rnd nowf ts) :
    ∃ t ∈ ts, sevLE t.severity u.severity = true := by
  unfold classifyThreats at hu
  by_cases he : ts.isEmpty
  · rw [if_pos he] at hu
    simp at hu
  · rw [if_neg he] at hu
    obtain ⟨c, hc, hcu⟩ := List.mem_map.mp hu
    cases aiOk with
    | false =>
      obtain ⟨v, hv, r, now, hvc⟩ := applyRules_mem_exists defaultRules _ rnd nowf c hc
      refine ⟨v, hv, ?_⟩
      rw [← hcu, hvc]
      exact sevLE_trans (applyRulesOne_sev_mono r now v) (classifyOne_sev_mono _)
    | true =>
      obtain ⟨v, hv, r, now, hvc⟩ := applyRules_mem_exists defaultRules _ rnd nowf c hc
      obtain ⟨w, hw, hwv⟩ := behavioralSelect_mem_exists bScore _ v hv
      obtain ⟨t, ht, htw⟩ := List.mem_map.mp hw
      refine ⟨t, ht, ?_⟩
      have hsev : t.severity = v.severity := by
        rw [hwv, ← htw]
        rfl
      rw [← hcu, hvc, hsev]
      exact sevLE_trans (applyRulesOne_sev_mono r now v) (classifyOne_sev_mono _)

/-- Witness for C1: the full pipeline on the benign low-severity threat
`tBase` with all-zero oracles and a fixed clock. -/
theorem pipeline_severity_monotone_witness :
    ∃ t ∈ [tBase], sevLE t.severity uBase.severity = true :=
  pipeline_severity_monotone true (fun _ => 0) (fun _ => 0) (fun _ => 1)
    (fun _ => "2024-01-01T00:00:00.000Z") [tBase] uBase (by decide)

end CyberSentinel
